import Mathlib

/-!
Verification development for `ic_camera_control`, a thin wrapper over a
vendor camera SDK accessed through a foreign-function binding.

The Python class `IcCameraControl` (src/ic_camera_control/ic_camera_control.py)
is embedded shallowly: the session object becomes the `Session` structure, the
vendor library's observable behaviour at the FFI boundary becomes the `Vendor`
state together with one Lean function per foreign call, and each Python method
becomes a Lean function threading `Sys = Vendor × Session` explicitly and
returning the log events it emits.  The vendor DLL itself is closed source;
its per-call semantics is modelled from the external-interface contract of the
specification (status codes, device enumeration, handle validity), which is
all the wrapper observes.
-/

namespace IcCam

/-- Log levels of the diagnostics the wrapper emits through its module logger. -/
inductive LogLevel where
  | error
  | warning
  | info
  deriving DecidableEq, Repr

/-- One diagnostic record emitted through the `ic_camera_control` logger. -/
structure LogEvent where
  lvl : LogLevel
  msg : String
  deriving DecidableEq, Repr

/-- Modelled from the spec: status codes of the vendor load/save calls
(`tisgrabber` constants `IC_SUCCESS`, `IC_ERROR`, `IC_FILE_NOT_FOUND`,
`IC_DEVICE_NOT_FOUND`, `IC_WRONG_XML_FORMAT`, `IC_WRONG_INCOMPATIBLE_XML`);
the module holding the numeric values is not part of the sources, so the
codes are kept as distinguished tokens. -/
inductive RetCode where
  | success
  | error
  | fileNotFound
  | deviceNotFound
  | wrongXmlFormat
  | wrongIncompatibleXml
  deriving DecidableEq, Repr

/-- An enumerated camera device: its unique name and the video format it
delivers (width, height, bits per pixel). -/
structure DeviceInfo where
  uniqueName : String
  fmtW : Nat
  fmtH : Nat
  fmtBpp : Nat
  deriving DecidableEq, Repr

/-- Content of a device-state XML file as the vendor load call classifies it:
well-formedness, compatibility, and the device the file refers to. -/
structure ConfigFile where
  wellFormed : Bool
  compatible : Bool
  deviceName : String
  deriving DecidableEq, Repr

/-- The file system visible to the vendor load call: paths mapped to
device-state files. -/
def FileSystem := List (String × ConfigFile)

/-- State the vendor library keeps per grabber handle. -/
structure GrabberInfo where
  devValid : Bool
  live : Bool
  deviceName : String
  fmtW : Nat
  fmtH : Nat
  fmtBpp : Nat
  flipFilter : Bool
  deriving DecidableEq, Repr

/-- A freshly created grabber: no device opened yet. -/
def GrabberInfo.fresh : GrabberInfo :=
  { devValid := false, live := false, deviceName := "", fmtW := 0, fmtH := 0,
    fmtBpp := 0, flipFilter := false }

/-- Observable state of the vendor library: the devices currently enumerated,
the live grabber handles, and accounting of handle creation/release used to
state the ownership invariant. -/
structure Vendor where
  devices : List DeviceInfo
  nextHandle : Nat
  grabbers : List (Nat × GrabberInfo)
  created : Nat
  released : Nat
  savedFiles : List String
  deriving DecidableEq, Repr

/-- Look up a grabber handle in the vendor's handle table. -/
def glookup (h : Nat) : List (Nat × GrabberInfo) → Option GrabberInfo
  | [] => none
  | (k, g) :: rest => if k = h then some g else glookup h rest

/-- Update the entry of a grabber handle (no-op when the handle is absent). -/
def gupdate (h : Nat) (f : GrabberInfo → GrabberInfo)
    (l : List (Nat × GrabberInfo)) : List (Nat × GrabberInfo) :=
  l.map (fun p => if p.1 = h then (p.1, f p.2) else p)

/-- Remove a grabber handle from the table entirely. -/
def gremove (h : Nat) (l : List (Nat × GrabberInfo)) : List (Nat × GrabberInfo) :=
  l.filter (fun p => ¬ (p.1 = h))

/-- Look up a path in the modelled file system. -/
def fsLookup (fs : FileSystem) (path : String) : Option ConfigFile :=
  match fs with
  | [] => none
  | (p, c) :: rest => if p = path then some c else fsLookup rest path

/-- Find an enumerated device by unique name. -/
def findDevice (v : Vendor) (name : String) : Option DeviceInfo :=
  v.devices.find? (fun d => d.uniqueName = name)

/-- Vendor call `IC_CreateGrabber`: allocate a fresh grabber handle. -/
def IC_CreateGrabber (v : Vendor) : Nat × Vendor :=
  (v.nextHandle,
   { v with nextHandle := v.nextHandle + 1,
            grabbers := (v.nextHandle, GrabberInfo.fresh) :: v.grabbers,
            created := v.created + 1 })

/-- Vendor call `IC_IsDevValid`: a handle is valid when it exists and has a device open. -/
def IC_IsDevValid (v : Vendor) (h : Nat) : Bool :=
  match glookup h v.grabbers with
  | some g => g.devValid
  | none => false

/-- Open the named device on handle `h` (no-op when the name does not match an
enumerated device or the handle is absent). -/
def openByName (v : Vendor) (h : Nat) (name : String) : Vendor :=
  match findDevice v name with
  | some d =>
      let open1 : GrabberInfo → GrabberInfo := fun g =>
        { g with devValid := true, deviceName := d.uniqueName,
                 fmtW := d.fmtW, fmtH := d.fmtH, fmtBpp := d.fmtBpp }
      { v with grabbers := gupdate h open1 v.grabbers }
  | none => v

/-- Modelled from the spec: `IC_LoadDeviceStateFromFileEx` classifies the file
at `path` and, with `shouldOpen`, opens the device the file names; the four
failure codes map 1:1 to file-not-found / malformed / incompatible /
device-not-found and leave the state untouched. -/
def IC_LoadDeviceStateFromFileEx (v : Vendor) (fs : FileSystem) (h : Nat)
    (path : String) (shouldOpen : Bool) : RetCode × Vendor :=
  match fsLookup fs path with
  | none => (RetCode.fileNotFound, v)
  | some c =>
      if c.wellFormed then
        if c.compatible then
          match findDevice v c.deviceName with
          | some _ =>
              if shouldOpen then (RetCode.success, openByName v h c.deviceName)
              else (RetCode.success, v)
          | none => (RetCode.deviceNotFound, v)
        else (RetCode.wrongIncompatibleXml, v)
      else (RetCode.wrongXmlFormat, v)

/-- Vendor call `IC_GetDeviceCount`: number of enumerated devices. -/
def IC_GetDeviceCount (v : Vendor) : Nat :=
  v.devices.length

/-- Vendor call `IC_GetUniqueNamefromList`: unique name at an index, null when out of
range (with zero devices the call returns a null pointer, i.e. `none`). -/
def IC_GetUniqueNamefromList (v : Vendor) (i : Nat) : Option String :=
  (v.devices.get? i).map (fun d => d.uniqueName)

/-- Vendor call `IC_OpenDevByUniqueName`: open the device with the given unique name on
the handle; a null name is a no-op failure. -/
def IC_OpenDevByUniqueName (v : Vendor) (h : Nat) (name : Option String) : Vendor :=
  match name with
  | some n => openByName v h n
  | none => v

/-- Vendor call `IC_ShowDeviceSelectionDialog(None)`: the dialog creates a fresh grabber
handle and, when the user picks device `choice`, opens it on that handle;
the new handle is returned either way. -/
def IC_ShowDeviceSelectionDialog (v : Vendor) (choice : Option Nat) : Nat × Vendor :=
  let (h, v1) := IC_CreateGrabber v
  match choice with
  | some i =>
      match v1.devices.get? i with
      | some d => (h, openByName v1 h d.uniqueName)
      | none => (h, v1)
  | none => (h, v1)

/-- Vendor call `IC_StartLive`: begin acquisition on a valid handle (the display-window
flag has no further observable effect in the model). -/
def IC_StartLive (v : Vendor) (h : Nat) : Vendor :=
  { v with grabbers := gupdate h (fun g =>
      if g.devValid then { g with live := true } else g) v.grabbers }

/-- Grabber transformation of a stop-live call. -/
def liveOff (g : GrabberInfo) : GrabberInfo :=
  { g with live := false }

/-- Vendor state after stopping live mode on a handle. -/
def vendorStop (v : Vendor) (h : Nat) : Vendor :=
  { v with grabbers := gupdate h liveOff v.grabbers }

/-- Vendor state after destroying a handle. -/
def vendorDrop (v : Vendor) (h : Nat) : Vendor :=
  { v with grabbers := gremove h v.grabbers, released := v.released + 1 }

/-- Vendor call `IC_StopLive`, checked: faults (`none`) when the handle does not exist. -/
def IC_StopLiveChecked (v : Vendor) (h : Nat) : Option Vendor :=
  match glookup h v.grabbers with
  | some _ => some (vendorStop v h)
  | none => none

/-- Vendor call `IC_ReleaseGrabber`, checked: destroys the handle; faults (`none`) when it
does not exist (a double free). -/
def IC_ReleaseGrabberChecked (v : Vendor) (h : Nat) : Option Vendor :=
  match glookup h v.grabbers with
  | some _ => some (vendorDrop v h)
  | none => none

/-- Vendor call `IC_SaveDeviceStateToFile`: writes the settings file and returns success
only for a valid handle; otherwise fails and writes nothing. -/
def IC_SaveDeviceStateToFile (v : Vendor) (h : Nat) (path : String) : RetCode × Vendor :=
  if IC_IsDevValid v h then (RetCode.success, { v with savedFiles := path :: v.savedFiles })
  else (RetCode.error, v)

/-- Vendor call `IC_GetDeviceName`: name of the device opened on the handle. -/
def IC_GetDeviceName (v : Vendor) (h : Nat) : String :=
  match glookup h v.grabbers with
  | some g => g.deviceName
  | none => ""

/-- Vendor call `IC_GetImageDescription`: the current image geometry of the handle, when
it has a device open; `none` when the call fails (the Python `c_long` output
arguments then keep their previous values). -/
def IC_GetImageDescription (v : Vendor) (h : Nat) : Option (Nat × Nat × Nat) :=
  match glookup h v.grabbers with
  | some g => if g.devValid then some (g.fmtW, g.fmtH, g.fmtBpp) else none
  | none => none

/-- The `CallbackUserdata` structure shared with the device-lost callback:
device name and connected flag. -/
structure Userdata where
  devicename : String
  connected : Bool
  deriving DecidableEq, Repr

/-- The Python-side state of an `IcCameraControl` object: cached image
geometry (`_width`, `_height`, `_bits_per_pixel`, `_channel`,
`_buffer_size`), the grabber handle, and the shared userdata. -/
structure Session where
  width : Nat
  height : Nat
  bitsPerPixel : Nat
  channel : Nat
  bufferSize : Nat
  hGrabber : Nat
  userdata : Userdata
  deriving DecidableEq, Repr

/-- Whole-system state: vendor library plus the Python object. -/
structure Sys where
  vendor : Vendor
  sess : Session
  deriving DecidableEq, Repr

/-- Model of `np.ndarray(buffer=cast(ptr, c_ubyte*bufferSize).contents, dtype=uint8,
shape=(h, w, c))`: a view of the first `h*w*c` bytes at the image pointer.
Construction raises (`none`) when the requested size exceeds the size of the
buffer object produced by the cast. -/
def npNdarray (bufferSize h w c : Nat) (mem : Nat → Nat) : Option (List Nat) :=
  if h * w * c ≤ bufferSize then
    some (List.ofFn (fun i : Fin (h * w * c) => mem i.val % 256))
  else none

/-- Possible outcomes of `read()`: a returned pair, the bare `None` of the
implicit fallthrough return, or a propagated exception. -/
inductive ReadResult where
  | pair (connected : Bool) (frame : Option (List Nat))
  | implicitNone
  | raised
  deriving DecidableEq, Repr

/-- Method `read()`: snap one image and wrap the vendor buffer.  `snapOk` is whether
`IC_SnapImage` returned `IC_SUCCESS`; `imagePtr` is the memory at the pointer
`IC_GetImagePtr` returned, `none` when that pointer is null.  Mirrors the
source exactly, including the branch that only logs a warning and falls
through to Python's implicit `None`. -/
def read (s : Sys) (snapOk : Bool) (imagePtr : Option (Nat → Nat)) :
    ReadResult × List LogEvent :=
  if snapOk then
    match imagePtr with
    | some mem =>
        match npNdarray s.sess.bufferSize s.sess.height s.sess.width s.sess.channel mem with
        | some arr => (ReadResult.pair s.sess.userdata.connected (some arr), [])
        | none => (ReadResult.raised, [])
    | none => (ReadResult.implicitNone, [⟨LogLevel.warning, "No device found."⟩])
  else
    (ReadResult.pair s.sess.userdata.connected none, [])

/-- Method `load_properties(config_file_path, should_open_device)`: delegate to the
vendor load call and log one generic error message when it reports any of the
four failure codes. -/
def load_properties (s : Sys) (fs : FileSystem) (path : String)
    (shouldOpen : Bool) : Sys × List LogEvent :=
  let r := IC_LoadDeviceStateFromFileEx s.vendor fs s.sess.hGrabber path shouldOpen
  let logs :=
    if r.1 = RetCode.fileNotFound ∨ r.1 = RetCode.deviceNotFound ∨
        r.1 = RetCode.wrongXmlFormat ∨ r.1 = RetCode.wrongIncompatibleXml then
      [⟨LogLevel.error, "Can not load config"⟩]
    else []
  ({ s with vendor := r.2 }, logs)

/-- Method `_select_device()`: with more than one device show the selection dialog
(which hands back a new grabber handle), otherwise open device 0 by unique
name on the existing handle.  Also reports whether the dialog was shown. -/
def select_device (s : Sys) (choice : Option Nat) : Nat × Vendor × Bool :=
  if IC_GetDeviceCount s.vendor > 1 then
    let r := IC_ShowDeviceSelectionDialog s.vendor choice
    (r.1, r.2, true)
  else
    let name := IC_GetUniqueNamefromList s.vendor 0
    (s.sess.hGrabber, IC_OpenDevByUniqueName s.vendor s.sess.hGrabber name, false)

/-- Method `_setup_device()`: record the device name, set connected, register the
frame-ready and device-lost callbacks (registration itself has no further
observable state in the model). -/
def setup_device (s : Sys) : Sys :=
  let name := IC_GetDeviceName s.vendor s.sess.hGrabber
  { s with sess := { s.sess with userdata := { devicename := name, connected := true } } }

/-- Result of `open_device`: new state, return value, whether the selection
dialog was shown, and the emitted diagnostics. -/
structure OpenOutcome where
  sys : Sys
  ret : Bool
  dialogShown : Bool
  logs : List LogEvent
  deriving DecidableEq, Repr

/-- First half of `open_device`: load the configuration (with open) and fall
back to `_select_device` when the handle is still invalid; yields the state
the final validity test inspects and whether the dialog was shown. -/
def open_stage2 (s : Sys) (fs : FileSystem) (path : String)
    (choice : Option Nat) : Sys × Bool :=
  let s1 := (load_properties s fs path true).1
  if ¬ IC_IsDevValid s1.vendor s1.sess.hGrabber then
    let r := select_device s1 choice
    ({ vendor := r.2.1, sess := { s1.sess with hGrabber := r.1 } }, r.2.2)
  else (s1, false)

/-- Method `open_device(config_file_path)`: load the configuration (with open), fall
back to `_select_device` when the handle is still invalid, then either set up
the device and return `True` or log and return `False`. -/
def open_device (s : Sys) (fs : FileSystem) (path : String)
    (choice : Option Nat) : OpenOutcome :=
  let logs1 := (load_properties s fs path true).2
  let s2 := (open_stage2 s fs path choice).1
  if IC_IsDevValid s2.vendor s2.sess.hGrabber then
    let s3 := setup_device s2
    { sys := s3, ret := true, dialogShown := (open_stage2 s fs path choice).2,
      logs := logs1 ++ [⟨LogLevel.info, "Device " ++ s3.sess.userdata.devicename ++ " open"⟩] }
  else
    { sys := s2, ret := false, dialogShown := (open_stage2 s fs path choice).2,
      logs := logs1 ++ [⟨LogLevel.info, "No device opened"⟩] }

/-- Method `start(create_window)`: `IC_StartLive` then `_get_image_description`,
which refreshes the cached geometry and recomputes `_channel` (`int(bpp/8.0)`)
and `_buffer_size` (`width*height*bits_per_pixel`) from the cached values. -/
def start (s : Sys) (createWindow : Bool) : Sys :=
  let v := IC_StartLive s.vendor s.sess.hGrabber
  let d := (IC_GetImageDescription v s.sess.hGrabber).getD
    (s.sess.width, s.sess.height, s.sess.bitsPerPixel)
  let _ := createWindow
  { vendor := v,
    sess := { s.sess with width := d.1, height := d.2.1, bitsPerPixel := d.2.2,
                          channel := d.2.2 / 8, bufferSize := d.1 * d.2.1 * d.2.2 } }

/-- Method `release()`: when the handle is valid, stop live mode and release the
grabber; `none` models a fault in the underlying vendor calls (a handle that
no longer exists, e.g. a double free). -/
def release (s : Sys) : Option Sys :=
  if IC_IsDevValid s.vendor s.sess.hGrabber then
    (IC_StopLiveChecked s.vendor s.sess.hGrabber).bind (fun v1 =>
      (IC_ReleaseGrabberChecked v1 s.sess.hGrabber).map (fun v2 =>
        { s with vendor := v2 }))
  else some s

/-- Method `save_properties(file_path)`: call the vendor save and discard its return
code; the wrapper emits no diagnostic and distinguishes no outcome. -/
def save_properties (s : Sys) (path : String) : Sys × List LogEvent :=
  let r := IC_SaveDeviceStateToFile s.vendor s.sess.hGrabber path
  ({ s with vendor := r.2 }, [])

/-- Callback `_deviceLostCallback`: the asynchronous notification clears the shared
connected flag and logs an error. -/
def deviceLostCallback (s : Sys) : Sys × List LogEvent :=
  ({ s with sess := { s.sess with userdata := { s.sess.userdata with connected := false } } },
   [⟨LogLevel.error, "Device " ++ s.sess.userdata.devicename ++ " lost"⟩])

/-- Method `_flip_image()`: install the vertical-flip frame filter on the device. -/
def flip_image (s : Sys) : Sys :=
  { s with vendor := { s.vendor with
      grabbers := gupdate s.sess.hGrabber (fun g => { g with flipFilter := true })
        s.vendor.grabbers } }

/-- The vendor library before any wrapper call: `devs` enumerated devices, no
grabber handles yet. -/
def initVendor (devs : List DeviceInfo) : Vendor :=
  { devices := devs, nextHandle := 1, grabbers := [], created := 0,
    released := 0, savedFiles := [] }

/-- Constructor `IcCameraControl.__init__`: create the grabber handle, open the device,
install the flip filter, start acquisition. -/
def mkSession (fs : FileSystem) (path : String) (choice : Option Nat)
    (devs : List DeviceInfo) : Sys :=
  let r := IC_CreateGrabber (initVendor devs)
  let s0 : Sys :=
    { vendor := r.2,
      sess := { width := 0, height := 0, bitsPerPixel := 0, channel := 0,
                bufferSize := 0, hGrabber := r.1,
                userdata := { devicename := "", connected := false } } }
  let s1 := (open_device s0 fs path choice).sys
  start (flip_image s1) false

/-- One public operation on a live session, together with the environment
inputs it consumes (file system, dialog choice, snap outcome, raw image
memory).  `opDeviceLost` is the asynchronous vendor notification. -/
inductive Op where
  | opOpen (fs : FileSystem) (path : String) (choice : Option Nat)
  | opLoad (fs : FileSystem) (path : String)
  | opStart (createWindow : Bool)
  | opRead (snapOk : Bool) (imagePtr : Option (Nat → Nat))
  | opSave (path : String)
  | opRelease
  | opDeviceLost
  | opShowPropertyDialog
  | opListProps

/-- State transition of one operation.  Operations that only return values
(`read`), only touch vendor-internal UI (`show_property_dialog`,
`list_available_properties`), or fault (impossible for `release`, proved
below) leave the state unchanged. -/
def applyOp (op : Op) (s : Sys) : Sys :=
  match op with
  | Op.opOpen fs path choice => (open_device s fs path choice).sys
  | Op.opLoad fs path => (load_properties s fs path false).1
  | Op.opStart cw => start s cw
  | Op.opRead _ _ => s
  | Op.opSave path => (save_properties s path).1
  | Op.opRelease => (release s).getD s
  | Op.opDeviceLost => (deviceLostCallback s).1
  | Op.opShowPropertyDialog => s
  | Op.opListProps => s

/-- Run a sequence of operations. -/
def runOps (s : Sys) (ops : List Op) : Sys :=
  ops.foldl (fun st op => applyOp op st) s

/-- Predicate of an operation carrying a successful `open_device` call on
state `s`: the only way the connected flag is raised. -/
def isSuccessfulOpen (op : Op) (s : Sys) : Prop :=
  match op with
  | Op.opOpen fs path choice => (open_device s fs path choice).ret = true
  | _ => False

/-- Handle-ownership invariant of a session whose construction handle is
`h0`: one handle ever created, at most one release, the session still holds
`h0`, at most one device is enumerated, and once released the handle is gone
from the vendor table. -/
def HandleInv (h0 : Nat) (s : Sys) : Prop :=
  s.vendor.created = 1 ∧ s.vendor.released ≤ 1 ∧ s.sess.hGrabber = h0 ∧
  s.vendor.devices.length ≤ 1 ∧
  (s.vendor.released = 1 → glookup h0 s.vendor.grabbers = none)

/-- Vendor-state similarity for the ownership argument: handle accounting
and device enumeration agree and the same handles are absent. -/
def VendorSim (v v2 : Vendor) : Prop :=
  v2.created = v.created ∧ v2.released = v.released ∧ v2.devices = v.devices ∧
  ∀ k, glookup k v2.grabbers = none ↔ glookup k v.grabbers = none

/-- A sample enumerated device with a 2×2, 8-bit format. -/
def devA : DeviceInfo := ⟨"devA", 2, 2, 8⟩

/-- A second sample device with a 4×2, 24-bit format. -/
def devB : DeviceInfo := ⟨"devB", 4, 2, 24⟩

/-- An empty file system: no configuration file exists. -/
def fsEmpty : FileSystem := []

/-- A file system holding a malformed file and a file naming an absent
device, used to compare the diagnostics of the three load failures. -/
def fsBad : FileSystem :=
  [("bad.xml", ⟨false, true, "devA"⟩), ("ghost.xml", ⟨true, true, "ghost"⟩)]

/-- A session constructed with exactly one enumerated device and no
configuration file: open succeeded and acquisition is running. -/
def sOne : Sys := mkSession fsEmpty "" none [devA]

/-- The same session after the asynchronous device-lost notification. -/
def sLost : Sys := (deviceLostCallback sOne).1

/-- A session constructed with no devices at all: the handle stays invalid. -/
def sNoDev : Sys := mkSession fsEmpty "" none []

/-- Image memory holding the byte 7 at every address. -/
def memSeven : Nat → Nat := fun _ => 7

/-- A vendor state with one enumerated device and one fresh (unopened)
grabber handle. -/
def vOne : Vendor :=
  { devices := [devA], nextHandle := 2, grabbers := [(1, GrabberInfo.fresh)],
    created := 1, released := 0, savedFiles := [] }

/-- A fresh Python session object pointing at handle 1, before any open. -/
def sessFresh : Session :=
  { width := 0, height := 0, bitsPerPixel := 0, channel := 0, bufferSize := 0,
    hGrabber := 1, userdata := { devicename := "", connected := false } }

/-! ### Helper lemmas about the handle table and state preservation -/

theorem glookup_gupdate (h h2 : Nat) (f : GrabberInfo → GrabberInfo)
    (l : List (Nat × GrabberInfo)) :
    glookup h (gupdate h2 f l) =
      if h = h2 then (glookup h l).map f else glookup h l := by
  induction l with
  | nil => by_cases hh : h = h2 <;> simp [glookup, gupdate, hh]
  | cons p rest ih =>
      obtain ⟨k, g⟩ := p
      show glookup h ((if k = h2 then (k, f g) else (k, g)) :: gupdate h2 f rest) =
        if h = h2 then (glookup h ((k, g) :: rest)).map f
        else glookup h ((k, g) :: rest)
      by_cases hk : k = h2
      · rw [if_pos hk]
        show (if k = h then some (f g) else glookup h (gupdate h2 f rest)) = _
        by_cases hh : k = h
        · have hx : h = h2 := hh.symm.trans hk
          rw [if_pos hh, if_pos hx]
          show _ = (if k = h then some g else glookup h rest).map f
          rw [if_pos hh]
          rfl
        · have hx : ¬ h = h2 := fun hcon => hh (hk.trans hcon.symm)
          rw [if_neg hh, ih, if_neg hx, if_neg hx]
          show _ = if k = h then some g else glookup h rest
          rw [if_neg hh]
      · rw [if_neg hk]
        show (if k = h then some g else glookup h (gupdate h2 f rest)) = _
        by_cases hh : k = h
        · have hx : ¬ h = h2 := fun hcon => hk (hh.trans hcon)
          rw [if_pos hh, if_neg hx]
          show _ = if k = h then some g else glookup h rest
          rw [if_pos hh]
        · rw [if_neg hh, ih]
          by_cases hx : h = h2
          · rw [if_pos hx, if_pos hx]
            show _ = (if k = h then some g else glookup h rest).map f
            rw [if_neg hh]
          · rw [if_neg hx, if_neg hx]
            show _ = if k = h then some g else glookup h rest
            rw [if_neg hh]

theorem glookup_gremove (h : Nat) (l : List (Nat × GrabberInfo)) :
    glookup h (gremove h l) = none := by
  induction l with
  | nil => rfl
  | cons p rest ih =>
      obtain ⟨k, g⟩ := p
      by_cases hk : k = h <;> simp [glookup, gremove, hk, ih] <;>
        simp [gremove] at ih <;> exact ih

theorem isDevValid_iff (v : Vendor) (h : Nat) :
    IC_IsDevValid v h = true ↔
      ∃ g, glookup h v.grabbers = some g ∧ g.devValid = true := by
  unfold IC_IsDevValid
  cases hg : glookup h v.grabbers with
  | none => simp
  | some g => simp

theorem load_properties_sess (s : Sys) (fs : FileSystem) (path : String)
    (shouldOpen : Bool) : (load_properties s fs path shouldOpen).1.sess = s.sess :=
  rfl

theorem save_properties_sess (s : Sys) (path : String) :
    (save_properties s path).1.sess = s.sess :=
  rfl

theorem start_userdata (s : Sys) (cw : Bool) :
    (start s cw).sess.userdata = s.sess.userdata :=
  rfl

theorem open_stage2_userdata (s : Sys) (fs : FileSystem) (path : String)
    (choice : Option Nat) :
    ((open_stage2 s fs path choice).1).sess.userdata = s.sess.userdata := by
  simp only [open_stage2]
  split <;> rfl

theorem release_valid_eq (s : Sys) (g : GrabberInfo)
    (hg : glookup s.sess.hGrabber s.vendor.grabbers = some g)
    (hv : IC_IsDevValid s.vendor s.sess.hGrabber = true) :
    release s = some { s with vendor := vendorDrop (vendorStop s.vendor s.sess.hGrabber) s.sess.hGrabber } := by
  have hstop : IC_StopLiveChecked s.vendor s.sess.hGrabber =
      some (vendorStop s.vendor s.sess.hGrabber) := by
    unfold IC_StopLiveChecked
    rw [hg]
  have hlk : glookup s.sess.hGrabber
      (vendorStop s.vendor s.sess.hGrabber).grabbers = some (liveOff g) := by
    show glookup s.sess.hGrabber
      (gupdate s.sess.hGrabber liveOff s.vendor.grabbers) = some (liveOff g)
    rw [glookup_gupdate, if_pos rfl, hg]
    rfl
  have hrel : IC_ReleaseGrabberChecked (vendorStop s.vendor s.sess.hGrabber)
      s.sess.hGrabber =
      some (vendorDrop (vendorStop s.vendor s.sess.hGrabber) s.sess.hGrabber) := by
    unfold IC_ReleaseGrabberChecked
    rw [hlk]
  unfold release
  rw [if_pos hv, hstop, Option.some_bind, hrel]
  rfl

theorem release_total (s : Sys) :
    ∃ s', release s = some s' ∧
      IC_IsDevValid s'.vendor s'.sess.hGrabber = false ∧ s'.sess = s.sess := by
  by_cases hv : IC_IsDevValid s.vendor s.sess.hGrabber = true
  · obtain ⟨g, hg, _⟩ := (isDevValid_iff s.vendor s.sess.hGrabber).mp hv
    refine ⟨{ s with vendor := vendorDrop (vendorStop s.vendor s.sess.hGrabber) s.sess.hGrabber }, release_valid_eq s g hg hv, ?_, rfl⟩
    show IC_IsDevValid
      (vendorDrop (vendorStop s.vendor s.sess.hGrabber) s.sess.hGrabber)
      s.sess.hGrabber = false
    unfold IC_IsDevValid
    have hnone : glookup s.sess.hGrabber
        (vendorDrop (vendorStop s.vendor s.sess.hGrabber) s.sess.hGrabber).grabbers =
        none := by
      show glookup s.sess.hGrabber
        (gremove s.sess.hGrabber (vendorStop s.vendor s.sess.hGrabber).grabbers) = none
      exact glookup_gremove _ _
    rw [hnone]
  · refine ⟨s, ?_, by simpa using hv, rfl⟩
    unfold release
    rw [if_neg hv]

theorem release_getD_sess (s : Sys) : ((release s).getD s).sess = s.sess := by
  obtain ⟨s', h1, _, h3⟩ := release_total s
  rw [h1]
  exact h3

theorem open_device_ret_of_connected (s : Sys) (fs : FileSystem) (path : String)
    (choice : Option Nat)
    (hs : s.sess.userdata.connected = false)
    (hc : (open_device s fs path choice).sys.sess.userdata.connected = true) :
    (open_device s fs path choice).ret = true := by
  by_cases hvd : IC_IsDevValid ((open_stage2 s fs path choice).1).vendor
      ((open_stage2 s fs path choice).1).sess.hGrabber = true
  · simp [open_device, hvd]
  · simp only [open_device] at hc
    rw [if_neg hvd] at hc
    rw [open_stage2_userdata] at hc
    rw [hs] at hc
    cases hc

theorem load_vendor_no_devices (v : Vendor) (fs : FileSystem) (h : Nat)
    (path : String) (so : Bool) (hdev : v.devices = []) :
    (IC_LoadDeviceStateFromFileEx v fs h path so).2 = v := by
  unfold IC_LoadDeviceStateFromFileEx
  rcases fsLookup fs path with _ | c
  · rfl
  · by_cases hw : c.wellFormed <;> by_cases hc2 : c.compatible <;>
      simp [hw, hc2, findDevice, hdev]

theorem findDevice_single (v : Vendor) (d : DeviceInfo) (hdev : v.devices = [d]) :
    findDevice v d.uniqueName = some d := by
  unfold findDevice
  rw [hdev]
  simp [List.find?]

/-! ### Handle-ownership invariant lemmas -/

theorem glookup_gupdate_none (k h2 : Nat) (f : GrabberInfo → GrabberInfo)
    (l : List (Nat × GrabberInfo)) :
    glookup k (gupdate h2 f l) = none ↔ glookup k l = none := by
  rw [glookup_gupdate]
  by_cases hk : k = h2 <;> simp [hk]

theorem vendorSim_refl (v : Vendor) : VendorSim v v :=
  ⟨rfl, rfl, rfl, fun _ => Iff.rfl⟩

theorem vendorSim_trans (v1 v2 v3 : Vendor) (h12 : VendorSim v1 v2)
    (h23 : VendorSim v2 v3) : VendorSim v1 v3 := by
  obtain ⟨a1, b1, c1, d1⟩ := h12
  obtain ⟨a2, b2, c2, d2⟩ := h23
  exact ⟨a2.trans a1, b2.trans b1, c2.trans c1, fun k => (d2 k).trans (d1 k)⟩

theorem gupdate_sim (v : Vendor) (h : Nat) (f : GrabberInfo → GrabberInfo) :
    VendorSim v { v with grabbers := gupdate h f v.grabbers } :=
  ⟨rfl, rfl, rfl, fun k => glookup_gupdate_none k h f v.grabbers⟩

theorem openByName_sim (v : Vendor) (h : Nat) (n : String) :
    VendorSim v (openByName v h n) := by
  unfold openByName
  rcases findDevice v n with _ | d
  · exact vendorSim_refl v
  · exact gupdate_sim v h _

theorem startLive_sim (v : Vendor) (h : Nat) :
    VendorSim v (IC_StartLive v h) :=
  gupdate_sim v h _

theorem loadEx_sim (v : Vendor) (fs : FileSystem) (h : Nat) (path : String)
    (so : Bool) : VendorSim v (IC_LoadDeviceStateFromFileEx v fs h path so).2 := by
  unfold IC_LoadDeviceStateFromFileEx
  rcases fsLookup fs path with _ | c
  · exact vendorSim_refl v
  · dsimp only
    by_cases hw : c.wellFormed
    · rw [if_pos hw]
      by_cases hcc : c.compatible
      · rw [if_pos hcc]
        rcases findDevice v c.deviceName with _ | d
        · exact vendorSim_refl v
        · cases so
          · exact vendorSim_refl v
          · exact openByName_sim v h c.deviceName
      · rw [if_neg hcc]
        exact vendorSim_refl v
    · rw [if_neg hw]
      exact vendorSim_refl v

theorem save_sim (v : Vendor) (h : Nat) (path : String) :
    VendorSim v (IC_SaveDeviceStateToFile v h path).2 := by
  unfold IC_SaveDeviceStateToFile
  by_cases hv : IC_IsDevValid v h = true
  · rw [if_pos hv]
    exact ⟨rfl, rfl, rfl, fun _ => Iff.rfl⟩
  · rw [if_neg hv]
    exact vendorSim_refl v

theorem handleInv_sim (h0 : Nat) (s : Sys) (v2 : Vendor) (sess2 : Session)
    (hinv : HandleInv h0 s) (hsim : VendorSim s.vendor v2)
    (hh : sess2.hGrabber = h0) : HandleInv h0 ⟨v2, sess2⟩ := by
  obtain ⟨hc, hr, _, hd, hrel⟩ := hinv
  obtain ⟨sc, sr, sd, sg⟩ := hsim
  refine ⟨?_, ?_, hh, ?_, ?_⟩
  · show v2.created = 1
    rw [sc]
    exact hc
  · show v2.released ≤ 1
    rw [sr]
    exact hr
  · show v2.devices.length ≤ 1
    rw [sd]
    exact hd
  · intro h1
    exact (sg h0).mpr (hrel (sr.symm.trans h1))

theorem select_device_low (s : Sys) (choice : Option Nat)
    (hle : IC_GetDeviceCount s.vendor ≤ 1) :
    select_device s choice =
      (s.sess.hGrabber,
       IC_OpenDevByUniqueName s.vendor s.sess.hGrabber
         (IC_GetUniqueNamefromList s.vendor 0),
       false) := by
  unfold select_device
  rw [if_neg (by omega)]

theorem openDevByUniqueName_sim (v : Vendor) (h : Nat) (name : Option String) :
    VendorSim v (IC_OpenDevByUniqueName v h name) := by
  cases name
  · exact vendorSim_refl v
  · exact openByName_sim v h _

theorem open_stage2_handleInv (h0 : Nat) (s : Sys) (fs : FileSystem)
    (path : String) (choice : Option Nat) (hinv : HandleInv h0 s) :
    HandleInv h0 (open_stage2 s fs path choice).1 := by
  have hsim1 : VendorSim s.vendor (load_properties s fs path true).1.vendor :=
    loadEx_sim s.vendor fs s.sess.hGrabber path true
  have hcount : IC_GetDeviceCount (load_properties s fs path true).1.vendor ≤ 1 := by
    show ((load_properties s fs path true).1.vendor).devices.length ≤ 1
    rw [hsim1.2.2.1]
    exact hinv.2.2.2.1
  have hsel := select_device_low (load_properties s fs path true).1 choice hcount
  simp only [open_stage2]
  split
  · rw [hsel]
    refine handleInv_sim h0 s _ _ hinv ?_ ?_
    · exact vendorSim_trans _ _ _ hsim1
        (openDevByUniqueName_sim (load_properties s fs path true).1.vendor
          (load_properties s fs path true).1.sess.hGrabber
          (IC_GetUniqueNamefromList (load_properties s fs path true).1.vendor 0))
    · show (load_properties s fs path true).1.sess.hGrabber = h0
      rw [load_properties_sess]
      exact hinv.2.2.1
  · refine handleInv_sim h0 s _ _ hinv hsim1 ?_
    show (load_properties s fs path true).1.sess.hGrabber = h0
    rw [load_properties_sess]
    exact hinv.2.2.1

theorem open_device_handleInv (h0 : Nat) (s : Sys) (fs : FileSystem)
    (path : String) (choice : Option Nat) (hinv : HandleInv h0 s) :
    HandleInv h0 (open_device s fs path choice).sys := by
  have hstage := open_stage2_handleInv h0 s fs path choice hinv
  by_cases hfin : IC_IsDevValid ((open_stage2 s fs path choice).1).vendor
      ((open_stage2 s fs path choice).1).sess.hGrabber = true
  · have heq : (open_device s fs path choice).sys =
        setup_device (open_stage2 s fs path choice).1 := by
      simp only [open_device]
      rw [if_pos hfin]
    rw [heq]
    exact hstage
  · have heq : (open_device s fs path choice).sys =
        (open_stage2 s fs path choice).1 := by
      simp only [open_device]
      rw [if_neg hfin]
    rw [heq]
    exact hstage

theorem release_handleInv (h0 : Nat) (s : Sys) (hinv : HandleInv h0 s) :
    HandleInv h0 ((release s).getD s) := by
  by_cases hv : IC_IsDevValid s.vendor s.sess.hGrabber = true
  · obtain ⟨g, hg, _⟩ := (isDevValid_iff _ _).mp hv
    rw [release_valid_eq s g hg hv]
    obtain ⟨hc, hr, hh, hd, hrel⟩ := hinv
    have hr0 : s.vendor.released = 0 := by
      rcases Nat.lt_or_ge s.vendor.released 1 with h1 | h1
      · omega
      · exfalso
        have h1' : s.vendor.released = 1 := by omega
        have hnone := hrel h1'
        rw [hh] at hg
        rw [hnone] at hg
        cases hg
    refine ⟨hc, ?_, hh, hd, ?_⟩
    · show s.vendor.released + 1 ≤ 1
      omega
    · intro _
      show glookup h0 (gremove s.sess.hGrabber
        (gupdate s.sess.hGrabber liveOff s.vendor.grabbers)) = none
      rw [← hh]
      exact glookup_gremove _ _
  · have heq : release s = some s := by
      unfold release
      rw [if_neg hv]
    rw [heq]
    exact hinv

theorem applyOp_handleInv (h0 : Nat) (op : Op) (s : Sys)
    (hinv : HandleInv h0 s) : HandleInv h0 (applyOp op s) := by
  cases op with
  | opOpen fs path choice => exact open_device_handleInv h0 s fs path choice hinv
  | opLoad fs path =>
      exact handleInv_sim h0 s _ _ hinv
        (loadEx_sim s.vendor fs s.sess.hGrabber path false) hinv.2.2.1
  | opStart cw =>
      exact handleInv_sim h0 s _ _ hinv
        (startLive_sim s.vendor s.sess.hGrabber) hinv.2.2.1
  | opRead snapOk mem => exact hinv
  | opSave path =>
      exact handleInv_sim h0 s _ _ hinv
        (save_sim s.vendor s.sess.hGrabber path) hinv.2.2.1
  | opRelease => exact release_handleInv h0 s hinv
  | opDeviceLost =>
      exact handleInv_sim h0 s _ _ hinv (vendorSim_refl s.vendor) hinv.2.2.1
  | opShowPropertyDialog => exact hinv
  | opListProps => exact hinv

theorem runOps_handleInv (h0 : Nat) (ops : List Op) (s : Sys)
    (hinv : HandleInv h0 s) : HandleInv h0 (runOps s ops) := by
  induction ops generalizing s with
  | nil => exact hinv
  | cons op rest ih => exact ih (applyOp op s) (applyOp_handleInv h0 op s hinv)

theorem mkSession_handleInv (fs : FileSystem) (path : String)
    (choice : Option Nat) (devs : List DeviceInfo) (hdev : devs.length ≤ 1) :
    HandleInv 1 (mkSession fs path choice devs) := by
  have hinv0 : HandleInv 1 (⟨(IC_CreateGrabber (initVendor devs)).2,
      { width := 0, height := 0, bitsPerPixel := 0, channel := 0, bufferSize := 0,
        hGrabber := (IC_CreateGrabber (initVendor devs)).1,
        userdata := { devicename := "", connected := false } }⟩ : Sys) := by
    refine ⟨rfl, ?_, rfl, ?_, ?_⟩
    · show (0 : Nat) ≤ 1
      omega
    · exact hdev
    · intro h1
      have h1' : (0 : Nat) = 1 := h1
      exact absurd h1' (by decide)
  have h1 := open_device_handleInv 1 _ fs path choice hinv0
  have h2 : HandleInv 1 (flip_image (open_device (⟨(IC_CreateGrabber (initVendor devs)).2,
      { width := 0, height := 0, bitsPerPixel := 0, channel := 0, bufferSize := 0,
        hGrabber := (IC_CreateGrabber (initVendor devs)).1,
        userdata := { devicename := "", connected := false } }⟩ : Sys) fs path choice).sys) :=
    handleInv_sim 1 _ _ _ h1 (gupdate_sim _ _ _) h1.2.2.1
  exact handleInv_sim 1 _ _ _ h2 (startLive_sim _ _) h2.2.2.1

/-! ### Claim theorems -/

/-- C1: after `start` has run (so the cached geometry, channel count and
buffer size are refreshed), every `read()` call that returns a pair
`(true, frame)` yields a frame whose byte length is exactly
width × height × channel, with channel the cached bits-per-pixel / 8. -/
theorem read_after_start_frame_size (s : Sys) (cw snapOk : Bool)
    (mem : Option (Nat → Nat)) (b : Bool) (fr : List Nat) (lg : List LogEvent)
    (hread : read (start s cw) snapOk mem = (ReadResult.pair b (some fr), lg))
    (hb : b = true) :
    fr.length =
      (start s cw).sess.width * (start s cw).sess.height * (start s cw).sess.channel ∧
    (start s cw).sess.channel = (start s cw).sess.bitsPerPixel / 8 := by
  refine ⟨?_, rfl⟩
  unfold read at hread
  cases snapOk with
  | false => simp at hread
  | true =>
      cases mem with
      | none => simp at hread
      | some m =>
          simp only [if_true] at hread
          rcases hnp : npNdarray (start s cw).sess.bufferSize (start s cw).sess.height
              (start s cw).sess.width (start s cw).sess.channel m with _ | arr
          · rw [hnp] at hread
            cases hread
          · rw [hnp] at hread
            simp only [Prod.mk.injEq, ReadResult.pair.injEq, Option.some.injEq] at hread
            obtain ⟨⟨hbc, harr⟩, hlg⟩ := hread
            unfold npNdarray at hnp
            split at hnp
            · rw [← harr, ← Option.some.inj hnp]
              simp only [List.length_ofFn]
              ring
            · cases hnp

/-- Witness for C1 at a concrete one-device session with a 2×2, 8-bit
format: the returned frame has the 4 = 2 × 2 × 1 bytes the geometry
demands. -/
theorem read_after_start_frame_size_witness :
    ([7, 7, 7, 7] : List Nat).length =
      (start sOne false).sess.width * (start sOne false).sess.height *
        (start sOne false).sess.channel ∧
    (start sOne false).sess.channel = (start sOne false).sess.bitsPerPixel / 8 :=
  read_after_start_frame_size sOne false true (some memSeven) true [7, 7, 7, 7] []
    (by decide) rfl

/-- C2: for every session state, `release()` can run twice in succession
without faulting in the underlying vendor calls, and afterwards the session
holds no valid device handle. -/
theorem release_twice_no_fault (s : Sys) :
    ∃ s1 s2, release s = some s1 ∧ release s1 = some s2 ∧
      IC_IsDevValid s2.vendor s2.sess.hGrabber = false := by
  obtain ⟨s1, h1, hval, _⟩ := release_total s
  refine ⟨s1, s1, h1, ?_, hval⟩
  unfold release
  rw [if_neg (by simp [hval])]

/-- C3: when the snap succeeds but the vendor image pointer is null,
`read()` logs the warning and then falls through Python's implicit return:
it produces the bare `None`, not the `(connected, None)` pair the claim
(and the method's own docstring) promises. -/
theorem read_null_pointer_bare_none (s : Sys) :
    read s true none =
      (ReadResult.implicitNone, [⟨LogLevel.warning, "No device found."⟩]) :=
  rfl

/-- C10: whenever `read()` returns a pair, its first component is the
current value of the shared connected flag — not the constant `true`; in
particular, after the device-lost callback has cleared the flag, `read()`
returns `(false, frame)` with a valid frame attached. -/
theorem read_returns_connected_flag :
    (∀ (s : Sys) (snapOk : Bool) (mem : Option (Nat → Nat)) (b : Bool)
        (ofr : Option (List Nat)) (lg : List LogEvent),
      read s snapOk mem = (ReadResult.pair b ofr, lg) →
      b = s.sess.userdata.connected) ∧
    (read sLost true (some memSeven)).1 = ReadResult.pair false (some [7, 7, 7, 7]) := by
  constructor
  · intro s snapOk mem b ofr lg hread
    unfold read at hread
    cases snapOk with
    | false =>
        simp only [Bool.false_eq_true, if_false, Prod.mk.injEq,
          ReadResult.pair.injEq] at hread
        exact hread.1.1.symm
    | true =>
        cases mem with
        | none => simp at hread
        | some m =>
            simp only [if_true] at hread
            rcases hnp : npNdarray s.sess.bufferSize s.sess.height s.sess.width
                s.sess.channel m with _ | arr
            · rw [hnp] at hread
              cases hread
            · rw [hnp] at hread
              simp only [Prod.mk.injEq, ReadResult.pair.injEq] at hread
              exact hread.1.1.symm
  · decide

/-- Witness for C10: the theorem applied to the concrete disconnected
session, where `read` returned the pair `(false, frame)`. -/
theorem read_returns_connected_flag_witness :
    (false : Bool) = sLost.sess.userdata.connected :=
  read_returns_connected_flag.1 sLost true (some memSeven) false (some [7, 7, 7, 7]) []
    (by decide)

/-- C4 (amended): loading a configuration file that does not exist leaves
the session's connectivity state (shared connected flag and device name) and
the vendor state unchanged and emits exactly one error-level diagnostic per
call; that diagnostic is the generic "Can not load config" message shared by
all config-load failures, not a distinct file-not-found class. -/
theorem load_missing_file_unchanged (s : Sys) (fs : FileSystem) (path : String)
    (hmiss : fsLookup fs path = none) :
    (load_properties s fs path false).1.sess.userdata = s.sess.userdata ∧
    (load_properties s fs path false).1.vendor = s.vendor ∧
    (load_properties s fs path false).2 =
      [⟨LogLevel.error, "Can not load config"⟩] := by
  have hl : IC_LoadDeviceStateFromFileEx s.vendor fs s.sess.hGrabber path false =
      (RetCode.fileNotFound, s.vendor) := by
    unfold IC_LoadDeviceStateFromFileEx
    rw [hmiss]
  refine ⟨rfl, ?_, ?_⟩ <;> simp [load_properties, hl]

/-- Witness for C4 at the concrete connected session and the empty file
system. -/
theorem load_missing_file_unchanged_witness :
    (load_properties sOne fsEmpty "missing.xml" false).1.sess.userdata =
      sOne.sess.userdata ∧
    (load_properties sOne fsEmpty "missing.xml" false).1.vendor = sOne.vendor ∧
    (load_properties sOne fsEmpty "missing.xml" false).2 =
      [⟨LogLevel.error, "Can not load config"⟩] :=
  load_missing_file_unchanged sOne fsEmpty "missing.xml" rfl

/-- C4 counterexample: the diagnostic surfaced for a missing file is
identical to the one surfaced for a malformed file and for a file naming an
absent device — `load_properties` surfaces one generic error, not a
`ConfigFileNotFound` class distinct from the other failure classes. -/
theorem load_error_classes_not_distinct :
    (load_properties sOne fsBad "missing.xml" false).2 =
      (load_properties sOne fsBad "bad.xml" false).2 ∧
    (load_properties sOne fsBad "bad.xml" false).2 =
      (load_properties sOne fsBad "ghost.xml" false).2 ∧
    (load_properties sOne fsBad "missing.xml" false).2 =
      [⟨LogLevel.error, "Can not load config"⟩] := by
  decide

/-- C7: with zero devices enumerated — so no configuration file can resolve
a device either — `open_device` returns `False` and leaves the session
without a valid device handle. -/
theorem open_zero_devices_fails (v : Vendor) (sess : Session) (fs : FileSystem)
    (path : String) (choice : Option Nat)
    (hdev : v.devices = [])
    (hvalid : IC_IsDevValid v sess.hGrabber = false) :
    (open_device ⟨v, sess⟩ fs path choice).ret = false ∧
    IC_IsDevValid (open_device ⟨v, sess⟩ fs path choice).sys.vendor
      (open_device ⟨v, sess⟩ fs path choice).sys.sess.hGrabber = false := by
  have hld : (load_properties ⟨v, sess⟩ fs path true).1.vendor = v :=
    load_vendor_no_devices v fs sess.hGrabber path true hdev
  have hcond : IC_IsDevValid (load_properties ⟨v, sess⟩ fs path true).1.vendor
      (load_properties ⟨v, sess⟩ fs path true).1.sess.hGrabber = false := by
    rw [hld]
    exact hvalid
  have hsel : select_device (load_properties ⟨v, sess⟩ fs path true).1 choice =
      (sess.hGrabber, v, false) := by
    unfold select_device
    rw [if_neg (by rw [hld]; simp [IC_GetDeviceCount, hdev])]
    rw [load_properties_sess]
    rw [hld]
    simp [IC_GetUniqueNamefromList, hdev, IC_OpenDevByUniqueName]
  have hstage : open_stage2 ⟨v, sess⟩ fs path choice = (⟨v, sess⟩, false) := by
    simp only [open_stage2]
    rw [if_pos (by simp [hcond])]
    rw [hsel, load_properties_sess]
  have hfin : IC_IsDevValid ((open_stage2 ⟨v, sess⟩ fs path choice).1).vendor
      ((open_stage2 ⟨v, sess⟩ fs path choice).1).sess.hGrabber = false := by
    rw [hstage]
    exact hvalid
  constructor
  · simp only [open_device]
    rw [if_neg (by simp [hfin])]
  · simp only [open_device]
    rw [if_neg (by simp [hfin])]
    exact hfin

/-- Witness for C7: a fresh session object against a vendor with zero
devices. -/
theorem open_zero_devices_fails_witness :
    (open_device ⟨initVendor [], sessFresh⟩ fsEmpty "" none).ret = false ∧
    IC_IsDevValid (open_device ⟨initVendor [], sessFresh⟩ fsEmpty "" none).sys.vendor
      (open_device ⟨initVendor [], sessFresh⟩ fsEmpty "" none).sys.sess.hGrabber = false :=
  open_zero_devices_fails (initVendor []) sessFresh fsEmpty "" none rfl (by decide)

/-- C8: with exactly one enumerated device and no configuration path, the
open succeeds — `open_device` returns `True` — and the selection dialog is
never shown. -/
theorem open_one_device_no_dialog (v : Vendor) (sess : Session) (fs : FileSystem)
    (choice : Option Nat) (d : DeviceInfo) (g : GrabberInfo)
    (hdev : v.devices = [d])
    (hg : glookup sess.hGrabber v.grabbers = some g)
    (hfs : fsLookup fs "" = none) :
    (open_device ⟨v, sess⟩ fs "" choice).ret = true ∧
    (open_device ⟨v, sess⟩ fs "" choice).dialogShown = false := by
  have hld : (load_properties ⟨v, sess⟩ fs "" true).1.vendor = v := by
    show (IC_LoadDeviceStateFromFileEx v fs sess.hGrabber "" true).2 = v
    unfold IC_LoadDeviceStateFromFileEx
    rw [hfs]
  by_cases hval : IC_IsDevValid v sess.hGrabber = true
  · have hcond : IC_IsDevValid (load_properties ⟨v, sess⟩ fs "" true).1.vendor
        (load_properties ⟨v, sess⟩ fs "" true).1.sess.hGrabber = true := by
      rw [hld]
      exact hval
    have hstage : open_stage2 ⟨v, sess⟩ fs "" choice =
        ((load_properties ⟨v, sess⟩ fs "" true).1, false) := by
      simp only [open_stage2]
      rw [if_neg (by simp [hcond])]
    have hfin : IC_IsDevValid ((open_stage2 ⟨v, sess⟩ fs "" choice).1).vendor
        ((open_stage2 ⟨v, sess⟩ fs "" choice).1).sess.hGrabber = true := by
      rw [hstage]
      exact hcond
    constructor
    · simp only [open_device]
      rw [if_pos hfin]
    · simp only [open_device]
      rw [if_pos hfin, hstage]
  · have hsel : select_device (load_properties ⟨v, sess⟩ fs "" true).1 choice =
        (sess.hGrabber, openByName v sess.hGrabber d.uniqueName, false) := by
      unfold select_device
      rw [if_neg (by rw [hld]; simp [IC_GetDeviceCount, hdev])]
      rw [load_properties_sess]
      rw [hld]
      simp [IC_GetUniqueNamefromList, hdev, IC_OpenDevByUniqueName]
    have hcond : IC_IsDevValid (load_properties ⟨v, sess⟩ fs "" true).1.vendor
        (load_properties ⟨v, sess⟩ fs "" true).1.sess.hGrabber = false := by
      rw [hld]
      simpa using hval
    have hstage : open_stage2 ⟨v, sess⟩ fs "" choice =
        (⟨openByName v sess.hGrabber d.uniqueName, sess⟩, false) := by
      simp only [open_stage2]
      rw [if_pos (by simp [hcond])]
      rw [hsel, load_properties_sess]
    have hopen : IC_IsDevValid (openByName v sess.hGrabber d.uniqueName)
        sess.hGrabber = true := by
      unfold openByName
      rw [findDevice_single v d hdev]
      dsimp only
      unfold IC_IsDevValid
      dsimp only
      rw [glookup_gupdate, if_pos rfl, hg]
      rfl
    have hfin : IC_IsDevValid ((open_stage2 ⟨v, sess⟩ fs "" choice).1).vendor
        ((open_stage2 ⟨v, sess⟩ fs "" choice).1).sess.hGrabber = true := by
      rw [hstage]
      exact hopen
    constructor
    · simp only [open_device]
      rw [if_pos hfin]
    · simp only [open_device]
      rw [if_pos hfin, hstage]

/-- Witness for C8: one fresh grabber handle, one enumerated device, empty
file system. -/
theorem open_one_device_no_dialog_witness :
    (open_device ⟨vOne, sessFresh⟩ fsEmpty "" none).ret = true ∧
    (open_device ⟨vOne, sessFresh⟩ fsEmpty "" none).dialogShown = false :=
  open_one_device_no_dialog vOne sessFresh fsEmpty none devA GrabberInfo.fresh
    rfl (by decide) rfl

/-- C9 (amended): when the session holds no valid device handle, the
underlying vendor save call fails and writes no file, but `save_properties`
does not report the failure: it discards the return code, emits no
diagnostic, and its wrapper-level outcome is exactly as on success. -/
theorem save_no_handle_silent (s : Sys) (path : String)
    (hv : IC_IsDevValid s.vendor s.sess.hGrabber = false) :
    (IC_SaveDeviceStateToFile s.vendor s.sess.hGrabber path).1 = RetCode.error ∧
    (save_properties s path).1.vendor.savedFiles = s.vendor.savedFiles ∧
    (save_properties s path).2 = [] := by
  have hsave : IC_SaveDeviceStateToFile s.vendor s.sess.hGrabber path =
      (RetCode.error, s.vendor) := by
    unfold IC_SaveDeviceStateToFile
    rw [if_neg (by simp [hv])]
  refine ⟨by rw [hsave], ?_, rfl⟩
  show (IC_SaveDeviceStateToFile s.vendor s.sess.hGrabber path).2.savedFiles =
    s.vendor.savedFiles
  rw [hsave]

/-- Witness for C9 at the concrete session constructed with no devices. -/
theorem save_no_handle_silent_witness :
    (IC_SaveDeviceStateToFile sNoDev.vendor sNoDev.sess.hGrabber "cfg.xml").1 =
      RetCode.error ∧
    (save_properties sNoDev "cfg.xml").1.vendor.savedFiles =
      sNoDev.vendor.savedFiles ∧
    (save_properties sNoDev "cfg.xml").2 = [] :=
  save_no_handle_silent sNoDev "cfg.xml" (by decide)

/-- C9 counterexample: on the no-device session the vendor save call fails,
yet the wrapper's observable outcome — no diagnostics, plain return — is
identical to that of a successful save on the connected session, so the
operation does not report failure. -/
theorem save_failure_not_reported :
    (IC_SaveDeviceStateToFile sNoDev.vendor sNoDev.sess.hGrabber "out.xml").1 =
      RetCode.error ∧
    (save_properties sNoDev "out.xml").2 = (save_properties sOne "out.xml").2 ∧
    (save_properties sNoDev "out.xml").2 = [] := by
  decide

/-- C5 (amended): with at most one enumerated device the session owns
exactly the one native handle created at construction: across any sequence
of operations no further handle is created, the session handle is never
replaced, and the handle is released at most once.  With several enumerated
devices and no resolving configuration the claim fails — the
selection-dialog path creates a second handle and installs it, leaving the
construction handle unreleased (see the counterexample). -/
theorem single_device_owns_one_handle (fs : FileSystem) (path : String)
    (choice : Option Nat) (devs : List DeviceInfo) (ops : List Op)
    (hdev : devs.length ≤ 1) :
    (runOps (mkSession fs path choice devs) ops).vendor.created = 1 ∧
    (runOps (mkSession fs path choice devs) ops).vendor.released ≤ 1 ∧
    (runOps (mkSession fs path choice devs) ops).sess.hGrabber =
      (mkSession fs path choice devs).sess.hGrabber := by
  have hmk := mkSession_handleInv fs path choice devs hdev
  have hinv := runOps_handleInv 1 ops _ hmk
  exact ⟨hinv.1, hinv.2.1, by rw [hinv.2.2.1, hmk.2.2.1]⟩

/-- Witness for C5 at the concrete one-device session and a double
release. -/
theorem single_device_owns_one_handle_witness :
    (runOps (mkSession fsEmpty "" none [devA])
        [Op.opRelease, Op.opRelease]).vendor.created = 1 ∧
    (runOps (mkSession fsEmpty "" none [devA])
        [Op.opRelease, Op.opRelease]).vendor.released ≤ 1 ∧
    (runOps (mkSession fsEmpty "" none [devA])
        [Op.opRelease, Op.opRelease]).sess.hGrabber =
      (mkSession fsEmpty "" none [devA]).sess.hGrabber :=
  single_device_owns_one_handle fsEmpty "" none [devA]
    [Op.opRelease, Op.opRelease] (by decide)

/-- C5 counterexample: constructed with two enumerated devices and no
configuration file, the session takes the selection-dialog path, which
creates a second grabber handle (`created = 2`) and installs it as the
session handle (handle 2, opened on a device), while the originally created
handle 1 stays in the vendor table, never released. -/
theorem multi_device_open_replaces_handle :
    (mkSession fsEmpty "" (some 0) [devA, devB]).vendor.created = 2 ∧
    (mkSession fsEmpty "" (some 0) [devA, devB]).sess.hGrabber = 2 ∧
    glookup 1 (mkSession fsEmpty "" (some 0) [devA, devB]).vendor.grabbers ≠ none ∧
    (mkSession fsEmpty "" (some 0) [devA, devB]).vendor.released = 0 ∧
    IC_IsDevValid (mkSession fsEmpty "" (some 0) [devA, devB]).vendor 2 = true := by
  decide

/-- C6: the device-lost notification only ever drives the shared connected
flag to `false`, and across every operation the flag never goes from
`false` to `true` except through an `open_device` call that succeeds. -/
theorem connected_only_raised_by_open :
    (∀ s : Sys, (applyOp Op.opDeviceLost s).sess.userdata.connected = false) ∧
    (∀ (s : Sys) (op : Op),
      s.sess.userdata.connected = false →
      (applyOp op s).sess.userdata.connected = true →
      isSuccessfulOpen op s) := by
  constructor
  · intro s
    rfl
  · intro s op hs hc
    cases op with
    | opOpen fs path choice =>
        show (open_device s fs path choice).ret = true
        exact open_device_ret_of_connected s fs path choice hs hc
    | opLoad fs path =>
        have hc' : s.sess.userdata.connected = true := hc
        rw [hs] at hc'
        cases hc'
    | opStart cw =>
        have hc' : s.sess.userdata.connected = true := hc
        rw [hs] at hc'
        cases hc'
    | opRead snapOk mem =>
        have hc' : s.sess.userdata.connected = true := hc
        rw [hs] at hc'
        cases hc'
    | opSave path =>
        have hc' : s.sess.userdata.connected = true := hc
        rw [hs] at hc'
        cases hc'
    | opRelease =>
        have hc0 : ((release s).getD s).sess.userdata.connected = true := hc
        rw [release_getD_sess s] at hc0
        rw [hs] at hc0
        cases hc0
    | opDeviceLost =>
        have hc' : (false : Bool) = true := hc
        cases hc'
    | opShowPropertyDialog =>
        have hc' : s.sess.userdata.connected = true := hc
        rw [hs] at hc'
        cases hc'
    | opListProps =>
        have hc' : s.sess.userdata.connected = true := hc
        rw [hs] at hc'
        cases hc'

/-- Witness for C6: on the concrete device-lost session (flag down, handle
still valid), the only flag-raising step is the successful re-open. -/
theorem connected_only_raised_by_open_witness :
    isSuccessfulOpen (Op.opOpen fsEmpty "" none) sLost :=
  connected_only_raised_by_open.2 sLost (Op.opOpen fsEmpty "" none)
    (by decide) (by decide)

end IcCam
